import Mathlib

/-!
Verification development for the protocol scanner repository.

Shallow embedding of the parts of the code base that the claims of the
specification touch:

* `SubnetLatency.update` from `include/scanner/network/latency_manager.h`
  (Jacobson SRTT/RTTVAR estimator on 32-bit unsigned atomics);
* `expand_cidr` / `expand_ip_range` from `src/scanner/utils.cpp`
  (IPv4 CIDR and range expansion over `uint32_t`);
* `check_system_limits` from `src/scanner/main.cpp` (FD preflight);
* `IoThreadPool::choose_least_loaded_index` from
  `src/scanner/common/io_thread_pool.cpp`;
* the staging buffer operations from `src/scanner/scanner.cpp`
  (input-thread `push_back`, scheduler `back` + `pop_back`);
* `ScanSession` from `src/scanner/core/session.cpp` / `core/session.h`
  (construction, port queues, `start_one_probe`, `push_result`,
  `ready_to_release`), together with a step relation describing the
  probe lifecycle.

Machine integers are embedded as `Nat` with explicit reduction modulo
`2 ^ 32` (resp. `2 ^ 64`) where the C code computes in `uint32_t`
(resp. `size_t`); `int32_t` values are represented through `toInt32`.

The file is laid out as definitions first, then the lemmas and the
claim theorems.
-/

/-- Width constant for `uint32_t` arithmetic. -/
def u32Mod : Nat := 2 ^ 32

/-- Reinterpret a `uint32_t` bit pattern (a `Nat` below `2 ^ 32`) as the
`int32_t` with the same bits, the way `static_cast<int32_t>` behaves on
every mainstream platform. -/
def toInt32 (x : Nat) : Int :=
  if x % u32Mod < 2 ^ 31 then ((x % u32Mod : Nat) : Int)
  else ((x % u32Mod : Nat) : Int) - 2 ^ 32

/-- `uint32_t` subtraction `a - b` (wraps modulo `2 ^ 32`). -/
def sub32 (a b : Nat) : Nat := (a % u32Mod + (u32Mod - b % u32Mod)) % u32Mod

/-!
## Latency estimator (`latency_manager.h`)

`SubnetLatency` stores smoothed RTT and RTT variance in microseconds as
`std::atomic<uint32_t>`; `update` is the (intended) Jacobson recurrence.
The atomics are accessed with relaxed loads/stores inside a single call,
so one call is the pure function below.
-/

/-- State of `scanner::SubnetLatency`: `srtt_us` (initial 200000) and
`rttvar_us` (initial 50000), both `uint32_t`. -/
structure SubnetLatency where
  srtt_us : Nat
  rttvar_us : Nat
  deriving DecidableEq

/-- Initial bucket state from the member initializers. -/
def SubnetLatency.init : SubnetLatency := ⟨200000, 50000⟩

/-- `SubnetLatency::update(uint32_t sample_rtt_us)`:

```cpp
int32_t diff = (int32_t)sample_rtt_us - (int32_t)old_srtt;
uint32_t abs_diff = (diff < 0) ? -diff : diff;
uint32_t new_rttvar = old_rttvar +
    ((abs_diff > old_rttvar ? abs_diff - old_rttvar
                            : -(old_rttvar - abs_diff)) >> 2);
uint32_t new_srtt = old_srtt + (diff >> 3);
```

`diff` is the wrapped signed difference; `abs_diff` comes out as
`diff.natAbs` (also in the `diff = -2^31` wrap case).  The ternary in the
`new_rttvar` line has type `uint32_t`, so `-(old_rttvar - abs_diff)` is
the unsigned value `2^32 - (old_rttvar - abs_diff)` and `>> 2` is a
logical shift (division by 4 on that unsigned value).  `diff >> 3` is an
arithmetic shift on `int32_t`, i.e. floor division by 8, converted back
to `uint32_t` when added. -/
def SubnetLatency.update (st : SubnetLatency) (sample_rtt_us : Nat) : SubnetLatency :=
  let old_srtt := st.srtt_us % u32Mod
  let old_rttvar := st.rttvar_us % u32Mod
  let diff : Int := toInt32 (sub32 sample_rtt_us old_srtt)
  let abs_diff : Nat := diff.natAbs % u32Mod
  let new_rttvar : Nat :=
    (old_rttvar +
      (if abs_diff > old_rttvar then (abs_diff - old_rttvar) / 4
       else ((u32Mod - (old_rttvar - abs_diff)) % u32Mod) / 4)) % u32Mod
  let new_srtt : Nat := (old_srtt + ((Int.fdiv diff 8).emod (2 ^ 32)).toNat) % u32Mod
  ⟨new_srtt, new_rttvar⟩

/-- Modelled from the spec: the claimed RTTVAR recurrence
`rttvar ← rttvar + (abs_diff − rttvar) >> 2` with a *signed* shifted
difference (arithmetic shift, i.e. floor division by 4), reduced modulo
`2 ^ 32`.  This is the second definition of a refinement comparison; the
code-side definition is `SubnetLatency.update`. -/
def jacobsonRttvar (abs_diff rttvar : Nat) : Nat :=
  (((rttvar : Int) + Int.fdiv ((abs_diff : Int) - (rttvar : Int)) 4).emod (2 ^ 32)).toNat

/-- `LatencyManager::update(ip, rtt)` feeds the bucket the sample
`(uint32_t)(rtt.count() * 1000)`, i.e. `rtt_ms × 1000` microseconds
reduced modulo `2 ^ 32`. -/
def latencySampleOfMs (rtt_ms : Nat) : Nat := rtt_ms * 1000 % u32Mod

/-!
## Target expansion (`utils.cpp`)

`expand_cidr` and `expand_ip_range` compute a closed interval of
`uint32_t` addresses and emit it with
`for (uint32_t i = start; i <= last; ++i) ips.push_back(...)`.
String parsing/formatting of dotted quads is done by boost
(`make_address_v4` / `to_string`) and is out of scope; the embedding
works on the parsed 32-bit values.
-/

/-- The emission loop `for (uint32_t i = start; i <= last; ++i)
ips.push_back(i)`.  The loop exits only when `i > last`; since `i` is a
`uint32_t`, no value exceeds `last = 2^32 - 1`, so for that bound the
increment wraps `i` back to 0 and the loop never terminates.  We model
that divergence as `none`.  For `last < 2^32 - 1` the loop yields the
ascending run `start, start + 1, ..., last` (empty when `start > last`). -/
def emitRun (start last : Nat) : Option (List Nat) :=
  if last = u32Mod - 1 then none
  else if start ≤ last then some (List.range' start (last + 1 - start))
  else some []

/-- `expand_cidr` from `utils.cpp`, after boost has parsed the address to
`base_uint` and `std::stoi` the prefix to `prefix_len`:

```cpp
if (prefix_len < 0 || prefix_len > 32) return ips;           // empty
int host_bits = 32 - prefix_len;
uint32_t host_mask = (1UL << host_bits) - 1;                 // 64-bit shift, truncated
uint32_t network_addr = base_uint & ~host_mask;
uint32_t broadcast_addr = network_addr | host_mask;
uint32_t count = broadcast_addr - network_addr + 1;
if (count > 1048576) broadcast_addr = network_addr + 1048576 - 1;
for (uint32_t i = network_addr; i <= broadcast_addr; ++i) ...
```

`1UL` is 64-bit, so for `host_bits = 32` the mask is `2^32 - 1` after
truncation to `uint32_t`; `~host_mask` is `host_mask XOR (2^32 - 1)`;
`count` wraps modulo `2^32`. -/
def expand_cidr (base_uint : Nat) (prefix_len : Int) : Option (List Nat) :=
  if prefix_len < 0 ∨ prefix_len > 32 then some []
  else
    let host_bits : Nat := 32 - prefix_len.toNat
    let host_mask : Nat := (2 ^ host_bits - 1) % u32Mod
    let network_addr : Nat := (base_uint % u32Mod) &&& (host_mask ^^^ (u32Mod - 1))
    let broadcast_addr : Nat := network_addr ||| host_mask
    let count : Nat := (sub32 broadcast_addr network_addr + 1) % u32Mod
    let last : Nat := if count > 1048576 then network_addr + 1048576 - 1 else broadcast_addr
    emitRun network_addr last

/-- `expand_ip_range` from `utils.cpp`, after boost has parsed both
endpoints:

```cpp
if (start_uint > end_uint) std::swap(start_uint, end_uint);
if (end_uint - start_uint > 1048576) end_uint = start_uint + 1048576;
for (uint32_t i = start_uint; i <= end_uint; ++i) ...
``` -/
def expand_ip_range (start_ip end_ip : Nat) : Option (List Nat) :=
  let s0 := start_ip % u32Mod
  let e0 := end_ip % u32Mod
  let start_uint := if s0 > e0 then e0 else s0
  let end_uint := if s0 > e0 then s0 else e0
  let end_uint2 := if sub32 end_uint start_uint > 1048576
                   then start_uint + 1048576 else end_uint
  emitRun start_uint end_uint2

/-!
## System preflight (`main.cpp`)

`check_system_limits` first tries to raise the FD soft limit (OS calls,
out of scope); afterwards `fd_limit = rl.rlim_cur` holds the final soft
limit, and the `max_work_count` adjustment is the pure computation
below.
-/

/-- The `max_work_count` adjustment in `check_system_limits`, as a
function of the final FD soft limit and the configured value:

```cpp
size_t usable_fds = (fd_limit > 150) ? (fd_limit - 150) : 0;
if (config.max_work_count == 0 || config.max_work_count > usable_fds) {
    size_t suggested = std::max(size_t(100), usable_fds);
    if (config.max_work_count > 0) { /* keep suggested */ }
    else if (fd_limit < 10000)     { /* keep suggested */ }
    else                           { suggested = std::min((size_t)50000, usable_fds); }
    config.max_work_count = suggested;
}
``` -/
def check_system_limits (fd_limit max_work_count : Nat) : Nat :=
  let usable_fds : Nat := if fd_limit > 150 then fd_limit - 150 else 0
  if max_work_count = 0 ∨ max_work_count > usable_fds then
    let suggested := max 100 usable_fds
    if max_work_count > 0 then suggested
    else if fd_limit < 10000 then suggested
    else min 50000 usable_fds
  else max_work_count

/-!
## Reactor pool selection (`io_thread_pool.cpp`)

`choose_least_loaded_index` scans the `pending_tasks_` counters
(`std::atomic<std::size_t>`, initialised to 0) keeping the first
smallest value; the sentinel for "nothing seen" is
`std::numeric_limits<std::size_t>::max() = 2^64 - 1`.
-/

/-- The scan loop of `choose_least_loaded_index`, starting from
`idx = 0`, `min_load = 2^64 - 1`, and returning `(idx, min_load)`:

```cpp
for (i = 0; i < n; ++i)
    if (load[i] < min_load) { min_load = load[i]; idx = i; }
``` -/
def scanMinLoad : List Nat → Nat → Nat → Nat → Nat × Nat
  | [], _, idx, min_load => (idx, min_load)
  | load :: rest, i, idx, min_load =>
    if load < min_load then scanMinLoad rest (i + 1) i load
    else scanMinLoad rest (i + 1) idx min_load

/-- `IoThreadPool::choose_least_loaded_index`, together with the
round-robin counter `rr_` (returned as second component, since
`rr_.fetch_add` mutates it):

```cpp
std::size_t idx = 0;
std::size_t min_load = SIZE_MAX;
for (i = 0; i < pending_tasks_.size(); ++i)
    if (load[i] < min_load) { min_load = load[i]; idx = i; }
if (min_load == SIZE_MAX) {
    auto current = rr_.fetch_add(1);
    idx = current % contexts_.size();
}
return idx;
```

`contexts_` and `pending_tasks_` always have the same length. -/
def choose_least_loaded_index (pending_tasks : List Nat) (rr : Nat) : Nat × Nat :=
  let scanned := scanMinLoad pending_tasks 0 0 (2 ^ 64 - 1)
  if scanned.2 = 2 ^ 64 - 1 then (rr % pending_tasks.length, rr + 1)
  else (scanned.1, rr)

/-!
## Staging buffer (`scanner.cpp`)

`Scanner::targets_` is a `std::vector<ScanTarget>`; the `enqueue_target`
lambda on the input thread appends with `push_back` (after the
backpressure wait, out of scope), and the admission step in
`Scanner::scan_loop` takes `targets_.back()` and removes it with
`pop_back()`.
-/

/-- `scanner::ScanTarget` from `protocol_base.h`. -/
structure ScanTarget where
  domain : String
  ip : String
  mx_records : List String
  priority : Int
  deriving DecidableEq

/-- The input-thread append `targets_.push_back(std::move(t))`. -/
def stagingPush (targets : List ScanTarget) (t : ScanTarget) : List ScanTarget :=
  targets ++ [t]

/-- The admission step of `Scanner::scan_loop`:
`if (targets_.empty()) break; t = targets_.back(); targets_.pop_back();`
returning the removed target and the remaining buffer. -/
def admitNext (targets : List ScanTarget) : Option (ScanTarget × List ScanTarget) :=
  match targets.getLast? with
  | none => none
  | some t => some (t, targets.dropLast)

/-!
## Scan session (`core/session.h`, `core/session.cpp`)

`IProtocol` implementations are external collaborators; only their
`name()` and `default_ports()` are relevant here, so a protocol is
embedded as that pair.  `ProtocolResult` carries more fields in the
source (host, port, banner attributes); only the fields that
`push_result` inspects are embedded, and the C `double
response_time_ms` is embedded as an integer since only its sign test
and its forwarded millisecond value matter to the claims.  DNS
resolution inside the `ScanSession` constructor goes through the
injected resolver (external); `mkScanSession` therefore takes the ip
the target holds once the DNS block of the constructor has run.
-/

/-- The protocol interface surface used by the session: `name()` and
`default_ports()`. -/
structure IProtocol where
  name : String
  default_ports : List Nat
  deriving DecidableEq

/-- Probe port selection strategy (`ScanSession::ProbeMode`). -/
inductive ProbeMode where
  | AllAvailable
  | ProtocolDefaults
  deriving DecidableEq

/-- The fields of `scanner::ProtocolResult` that `push_result` reads:
the routing key `protocol`, the success flag `accessible`, and
`attrs.response_time_ms`. -/
structure ProtocolResult where
  protocol : String
  accessible : Bool
  response_time_ms : Int
  deriving DecidableEq

/-- State of a `scanner::ScanSession`.  `protocol_port_queues` /
`protocol_result_queues` are the per-protocol `std::queue<Port>` and
`TaskQueue<ProtocolResult>` maps (front of the list = front of the
queue).  `inflight` counts probes submitted by `start_one_probe` whose
single-shot completion callback has not yet run, and
`latency_updates` logs the `LatencyManager::instance().update(ip, ms)`
invocations issued by `push_result` (newest first). -/
structure ScanSession where
  ip : String
  domain : String
  only_success : Bool
  available_ports : List Nat
  protocol_port_queues : List (String × List Nat)
  protocol_result_queues : List (String × List ProtocolResult)
  tasks_total : Nat
  tasks_completed : Nat
  inflight : Nat
  latency_updates : List (String × Int)
  deriving DecidableEq

/-- The `available_ports_` build in the constructor: union of the
default ports of all protocols, first occurrence order, duplicates skipped via
`std::find`. -/
def build_available_ports (protocols : List IProtocol) : List Nat :=
  protocols.foldl
    (fun acc p => p.default_ports.foldl
      (fun acc2 d => if d ∈ acc2 then acc2 else acc2 ++ [d]) acc) []

/-- `ScanSession::should_probe`:

```cpp
if (available_ports_.empty()) return false;
if (find(available, port) == end) return false;
if (probe_mode_ == ProtocolDefaults) return find(defaults, port) != end;
return true;
``` -/
def should_probe (available_ports : List Nat) (mode : ProbeMode)
    (proto : IProtocol) (port : Nat) : Bool :=
  if available_ports.isEmpty then false
  else if decide (port ∈ available_ports) then
    match mode with
    | ProbeMode.ProtocolDefaults => decide (port ∈ proto.default_ports)
    | ProbeMode.AllAvailable => true
  else false

/-- `ScanSession::init_protocol_queues`, port-queue part: every protocol
gets a queue; if `available_ports_` is empty the queues stay empty,
otherwise in `ProtocolDefaults` mode the default ports of the protocol
that are available are pushed in order, and in `AllAvailable` mode every
available port is pushed. -/
def init_protocol_queues (protocols : List IProtocol) (available_ports : List Nat)
    (mode : ProbeMode) : List (String × List Nat) :=
  protocols.map (fun p =>
    (p.name,
     if available_ports.isEmpty then []
     else match mode with
       | ProbeMode.ProtocolDefaults =>
           p.default_ports.filter (fun d => decide (d ∈ available_ports))
       | ProbeMode.AllAvailable => available_ports))

/-- `ScanSession::init_protocol_queues`, result-queue part: one empty
`TaskQueue<ProtocolResult>` per protocol. -/
def init_result_queues (protocols : List IProtocol) :
    List (String × List ProtocolResult) :=
  protocols.map (fun p => (p.name, []))

/-- The `total_tasks` estimate of the constructor: per protocol, count the
default ports (in `ProtocolDefaults` mode) or the available ports (in
`AllAvailable` mode) that pass `should_probe`. -/
def count_total_tasks (protocols : List IProtocol) (available_ports : List Nat)
    (mode : ProbeMode) : Nat :=
  protocols.foldl
    (fun acc p =>
      acc + (match mode with
        | ProbeMode.ProtocolDefaults =>
            (p.default_ports.filter (should_probe available_ports mode p)).length
        | ProbeMode.AllAvailable =>
            (available_ports.filter (should_probe available_ports mode p)).length)) 0

/-- The `ScanSession` constructor after its DNS block: `resolved_ip` is
`target_.ip` at that point (the pre-provided ip, the resolved answer,
or empty on resolution failure).  Builds `available_ports_`, the
per-protocol queues, and the task total; counters start at zero.
`only_success` is set by the scheduler through `set_only_success`
immediately after construction, so it is taken as a parameter. -/
def mkScanSession (target : ScanTarget) (resolved_ip : String)
    (mode : ProbeMode) (protocols : List IProtocol) (only_success : Bool) :
    ScanSession :=
  let available := build_available_ports protocols
  { ip := resolved_ip
    domain := target.domain
    only_success := only_success
    available_ports := available
    protocol_port_queues := init_protocol_queues protocols available mode
    protocol_result_queues := init_result_queues protocols
    tasks_total := count_total_tasks protocols available mode
    tasks_completed := 0
    inflight := 0
    latency_updates := [] }

/-- `ScanSession::ready_to_release`:

```cpp
if (target_.ip.empty() && !target_.domain.empty()) return true;
if (tasks_total() == 0) return true;
return tasks_completed() >= tasks_total();
``` -/
def ScanSession.ready_to_release (s : ScanSession) : Bool :=
  if s.ip.isEmpty && !s.domain.isEmpty then true
  else if s.tasks_total == 0 then true
  else decide (s.tasks_total ≤ s.tasks_completed)

/-- Lookup in a per-protocol map (`unordered_map::find`). -/
def lookupBin {β : Type} : List (String × β) → String → Option β
  | [], _ => none
  | (n, l) :: rest, k => if n = k then some l else lookupBin rest k

/-- `result_queue(r.protocol)` followed by `rq->push(...)`: append the
result at the back of the queue of that protocol; if the protocol has no
queue (`result_queue` returns `nullptr`), nothing happens. -/
def pushBin : List (String × List ProtocolResult) → String → ProtocolResult →
    List (String × List ProtocolResult)
  | [], _, _ => []
  | (n, l) :: rest, k, r =>
    if n = k then (n, l ++ [r]) :: rest else (n, l) :: pushBin rest k r

/-- `ScanSession::push_result(ProtocolResult&& r)`:

```cpp
mark_task_completed();                                    // completed += 1
if (r.accessible && r.attrs.response_time_ms > 0)
    LatencyManager::instance().update(target_.ip, ms);    // logged here
if (only_success_ && !r.accessible) return;               // drop
auto rq = result_queue(r.protocol);
if (rq) rq->push(std::move(r));
``` -/
def ScanSession.push_result (s : ScanSession) (r : ProtocolResult) : ScanSession :=
  let s1 := { s with tasks_completed := s.tasks_completed + 1 }
  let s2 :=
    if r.accessible = true ∧ 0 < r.response_time_ms then
      { s1 with latency_updates := (s.ip, r.response_time_ms) :: s1.latency_updates }
    else s1
  if s.only_success = true ∧ r.accessible = false then s2
  else { s2 with protocol_result_queues := pushBin s2.protocol_result_queues r.protocol r }

/-- The port-selection loop of `start_one_probe`: find the first
protocol whose queue is non-empty, pop its front port, and return
(protocol name, port, updated queue map). -/
def pop_first_pending : List (String × List Nat) →
    Option (String × Nat × List (String × List Nat))
  | [] => none
  | (n, []) :: rest =>
    (pop_first_pending rest).map (fun x => (x.1, x.2.1, (n, []) :: x.2.2))
  | (n, port :: tail) :: rest => some (n, port, (n, tail) :: rest)

/-- `ScanSession::start_one_probe`:

```cpp
if (target_.ip.empty()) return false;
/* pop first pending (protocol, port) pair */
if (chosen_proto.empty()) return false;
/* locate the protocol instance by name */
if (!proto_ptr) return false;            // port already popped, probe lost
scan_pool.submit(...);                   // one in-flight probe
return true;
```

The thread-pool submission and the asio probe are external; their
effect on the session is recorded in `inflight` (the completion
callback later runs `push_result` exactly once per submission). -/
def ScanSession.start_one_probe (s : ScanSession) (protocols : List IProtocol) :
    Bool × ScanSession :=
  if s.ip.isEmpty then (false, s)
  else
    match pop_first_pending s.protocol_port_queues with
    | none => (false, s)
    | some (chosen_proto, _chosen_port, queues') =>
      match protocols.find? (fun p => p.name == chosen_proto) with
      | none => (false, { s with protocol_port_queues := queues' })
      | some _ =>
        (true, { s with protocol_port_queues := queues', inflight := s.inflight + 1 })

/-- Total number of ports still queued across all protocols. -/
def queuedCount (queues : List (String × List Nat)) : Nat :=
  (queues.map (fun kv => kv.2.length)).sum

/-- One step of the probe lifecycle of a session: either the scheduler
calls `start_one_probe` (whatever it returns), or the completion
callback of one in-flight probe fires, running `push_result` exactly once for that
probe. -/
inductive SessionStep (protocols : List IProtocol) : ScanSession → ScanSession → Prop
  | start (s : ScanSession) :
      SessionStep protocols s (s.start_one_probe protocols).2
  | complete (s : ScanSession) (r : ProtocolResult) (h : 0 < s.inflight) :
      SessionStep protocols s { s.push_result r with inflight := s.inflight - 1 }

/-- States reachable from a given session state under `SessionStep`. -/
inductive SessionReachable (protocols : List IProtocol) (s0 : ScanSession) :
    ScanSession → Prop
  | refl : SessionReachable protocols s0 s0
  | tail {s s' : ScanSession} : SessionReachable protocols s0 s →
      SessionStep protocols s s' → SessionReachable protocols s0 s'

/-!
## Lemmas and claim theorems
-/

/-- Claim C1.  The rttvar half of the claim fails on the code: in
`SubnetLatency::update`, the ternary `abs_diff > old_rttvar ?
abs_diff - old_rttvar : -(old_rttvar - abs_diff)` has type `uint32_t`,
so when `abs_diff < old_rttvar` the negation produces the unsigned value
`2^32 - (old_rttvar - abs_diff)` and `>> 2` is a logical (not signed)
shift.  At the default bucket state (srtt = 200000 us, rttvar = 50000 us)
with sample `rtt_ms = 200` (s = 200000 us) we get `abs_diff = 0`, and the
code sets rttvar to `50000 + ((2^32 - 50000) >> 2) = 1073779324`, whereas
the claimed signed-shift recurrence — which is also what the comment in
the code itself, `RTTVAR = RTTVAR + (ABS_DIFF - RTTVAR) / 4` documents — yields
37500.  The srtt half does match the claim (srtt stays 200000 here). -/
theorem c1_rttvar_unsigned_shift_eval :
    SubnetLatency.update ⟨200000, 50000⟩ (latencySampleOfMs 200) =
      ⟨200000, 1073779324⟩ ∧
    jacobsonRttvar 0 50000 = 37500 ∧ (1073779324 : Nat) ≠ 37500 := by
  refine ⟨?_, by decide, by decide⟩
  show SubnetLatency.mk _ _ = _
  simp only [SubnetLatency.update, latencySampleOfMs]
  decide

/-- Claim C2.  The claim fails on the code at `255.255.255.255/32`
(host count `1 ≤ 1048576`): the broadcast address of the block is
`2^32 - 1`, so the loop condition `i <= broadcast_addr` can never become
false for a `uint32_t` counter and the loop never terminates (modelled
as `none`) — instead of yielding the single address `255.255.255.255`
required by the claim.  A second violation, for the "larger block" half:
at `0.0.0.0/0` the count `broadcast - network + 1` wraps to 0, the
`count > 1048576` cap is bypassed, and the same non-terminating loop is
entered instead of emitting 1048576 addresses. -/
theorem c2_expand_cidr_wrap_eval :
    expand_cidr 4294967295 32 = none ∧
    none ≠ (some [(4294967295 : Nat)] : Option (List Nat)) ∧
    expand_cidr 0 0 = none := by
  refine ⟨by decide, by decide, by decide⟩

/-- Claim C3.  The cap in `expand_ip_range` is off by one: for
`0.0.0.0,16.0.0.0` (`a = 0`, `b = 2^28`), the code truncates the range
end to `start + 1048576` and the inclusive loop then emits
`1048577 = 1048576 + 1` addresses, while the claim allows exactly
`min(|b − a| + 1, 1048576) = 1048576`.  (In addition, the same
`i <= end` loop never terminates when `max(a,b) = 255.255.255.255`
survives the cap, e.g. for the one-address range
`255.255.255.255,255.255.255.255`, modelled as `none`.) -/
theorem c3_expand_ip_range_cap_eval :
    (expand_ip_range 0 268435456).map List.length = some 1048577 ∧
    1048577 ≠ min (268435456 - 0 + 1) 1048576 ∧
    expand_ip_range 4294967295 4294967295 = none := by
  refine ⟨?_, by decide, by decide⟩
  have h : expand_ip_range 0 268435456 = some (List.range' 0 1048577) := by
    simp only [expand_ip_range, emitRun, sub32, u32Mod]
    norm_num
  rw [h, Option.map_some']
  simp [List.length_range']

/-- Claim C6 (counterexample).  With final FD soft limit `L = 65535` and
configured `max_work_count = 70000`: `usable = 65385`, the configured
value exceeds `usable`, and the code sets `max_work_count` to
`max(100, usable) = 65385` — the `min(50000, ...)` cap of the claim is
only applied on the `max_work_count == 0` path, so the claimed value
`max(100, min(50000, 65385)) = 50000` is wrong. -/
theorem c6_check_system_limits_cex :
    check_system_limits 65535 70000 = 65385 ∧
    max 100 (min 50000 (65535 - 150)) = 50000 ∧ (65385 : Nat) ≠ 50000 := by
  refine ⟨by decide, by decide, by decide⟩

/-- Claim C6 (amended).  With `usable = L − 150` (0 when `L ≤ 150`):
when the configured `max_work_count` is 0, preflight sets it to
`max(100, min(50000, usable))`; when it is positive and exceeds
`usable`, preflight sets it to `max(100, usable)` (the 50000 cap does
not apply on this path); otherwise the configured value is kept. -/
theorem c6_check_system_limits_amended (L mwc : Nat) :
    check_system_limits L mwc =
      (let usable := if L > 150 then L - 150 else 0
       if mwc = 0 then max 100 (min 50000 usable)
       else if mwc > usable then max 100 usable
       else mwc) := by
  simp only [check_system_limits]
  split_ifs <;> omega

/-- Claim C7.  The round-robin half of the claim fails on the code: the
counters start at 0 and any load strictly below the `SIZE_MAX` sentinel
updates `min_load`, so with a non-empty pool whose counters are all zero
the scan ends with `min_load = 0 ≠ SIZE_MAX`, the round-robin branch is
never entered (it is reachable only for an empty pool or all counters
equal to `SIZE_MAX`), and consecutive selections all return index 0 with
`rr_` never advanced — not successive indices as claimed.  With two
contexts and loads `[0, 0]`, two consecutive calls both return index 0
and the second does not return index 1.  (The least-loaded half of the
claim — argmin with ties to the lowest index — does hold.) -/
theorem c7_rr_fallback_dead_eval :
    choose_least_loaded_index [0, 0] 0 = (0, 0) ∧
    choose_least_loaded_index [0, 0] (choose_least_loaded_index [0, 0] 0).2 = (0, 0) ∧
    (choose_least_loaded_index [0, 0] (choose_least_loaded_index [0, 0] 0).2).1 ≠ 1 := by
  refine ⟨by decide, by decide, by decide⟩

/-- Claim C8 (counterexample).  The staging buffer is a `std::vector`;
`enqueue_target` appends with `push_back` and the admission step in
`Scanner::scan_loop` takes `targets_.back()` and `pop_back()`s it.  With
two targets pushed in the order `a.example`, `b.example`, admission
removes `b.example` — the newest, not the oldest as the claim states. -/
theorem c8_staging_lifo_cex :
    admitNext (stagingPush (stagingPush [] ⟨"a.example", "", [], 0⟩)
        ⟨"b.example", "", [], 0⟩) =
      some (⟨"b.example", "", [], 0⟩, [⟨"a.example", "", [], 0⟩]) ∧
    (⟨"b.example", "", [], 0⟩ : ScanTarget) ≠ ⟨"a.example", "", [], 0⟩ := by
  exact ⟨rfl, by decide⟩

/-- Claim C8 (amended).  The staging buffer is a LIFO stack: for every
buffer state, the admission step of the scheduler removes the *most recently
pushed* pending `ScanTarget` and leaves the earlier ones untouched, so
targets become sessions in reverse order of production while the input
thread is ahead of the scheduler. -/
theorem c8_staging_lifo_amended (buf : List ScanTarget) (t : ScanTarget) :
    admitNext (stagingPush buf t) = some (t, buf) := by
  simp [admitNext, stagingPush, List.getLast?_concat, List.dropLast_concat]

/-- The `isEmpty` flag of a string is false exactly when the string is non-empty. -/
theorem string_isEmpty_false_iff (s : String) : s.isEmpty = false ↔ s ≠ "" := by
  rw [Bool.eq_false_iff]
  exact not_congr (String.isEmpty_iff s)

/-- Claim C4.  `ready_to_release` returns true exactly when (ip empty and
domain non-empty) or `tasks_total = 0` or `tasks_completed ≥ tasks_total`. -/
theorem c4_ready_to_release_iff (s : ScanSession) :
    s.ready_to_release = true ↔
      ((s.ip = "" ∧ s.domain ≠ "") ∨ s.tasks_total = 0 ∨
        s.tasks_total ≤ s.tasks_completed) := by
  simp only [ScanSession.ready_to_release]
  split_ifs with h1 h2 <;>
    simp_all only [Bool.and_eq_true, Bool.not_eq_true', String.isEmpty_iff,
      string_isEmpty_false_iff, beq_iff_eq, decide_eq_true_iff] <;>
    tauto

/-- `pushBin` appends to the looked-up bin. -/
theorem lookupBin_pushBin_self (bins : List (String × List ProtocolResult))
    (k : String) (r : ProtocolResult) :
    lookupBin (pushBin bins k r) k = (lookupBin bins k).map (fun l => l ++ [r]) := by
  induction bins with
  | nil => simp [lookupBin, pushBin]
  | cons kv rest ih =>
    obtain ⟨n, l⟩ := kv
    by_cases h : n = k <;> simp [lookupBin, pushBin, h, ih]

/-- `pushBin` leaves every other bin unchanged. -/
theorem lookupBin_pushBin_other (bins : List (String × List ProtocolResult))
    (k q : String) (r : ProtocolResult) (hq : q ≠ k) :
    lookupBin (pushBin bins k r) q = lookupBin bins q := by
  induction bins with
  | nil => simp [lookupBin, pushBin]
  | cons kv rest ih =>
    obtain ⟨n, l⟩ := kv
    by_cases h : n = k
    · subst h
      simp [lookupBin, pushBin, Ne.symm hq]
    · by_cases h2 : n = q <;> simp [lookupBin, pushBin, h, h2, hq, ih]

/-- `push_result` leaves the task total, the port queues and the
in-flight count untouched, and increments the completed counter. -/
theorem push_result_counters (s : ScanSession) (r : ProtocolResult) :
    (s.push_result r).tasks_completed = s.tasks_completed + 1 ∧
    (s.push_result r).tasks_total = s.tasks_total ∧
    (s.push_result r).protocol_port_queues = s.protocol_port_queues ∧
    (s.push_result r).inflight = s.inflight := by
  simp only [ScanSession.push_result]
  split_ifs <;> simp

/-- Claim C5.  `push_result(r)`: the completed counter rises by exactly
one in every case; the latency-estimator update is invoked (with the
target ip and the response time of `r`) exactly when `r.accessible` and
`response_time_ms > 0`; when `only_success` is set and `r` failed, no
result bin changes; otherwise `r` is appended at the back of the bin
keyed by `r.protocol` and all other bins are unchanged. -/
theorem c5_push_result_spec (s : ScanSession) (r : ProtocolResult) :
    (s.push_result r).tasks_completed = s.tasks_completed + 1 ∧
    (s.push_result r).latency_updates =
      (if r.accessible = true ∧ 0 < r.response_time_ms
       then (s.ip, r.response_time_ms) :: s.latency_updates
       else s.latency_updates) ∧
    (s.only_success = true → r.accessible = false →
      (s.push_result r).protocol_result_queues = s.protocol_result_queues) ∧
    (¬ (s.only_success = true ∧ r.accessible = false) →
      lookupBin (s.push_result r).protocol_result_queues r.protocol =
        (lookupBin s.protocol_result_queues r.protocol).map (fun l => l ++ [r]) ∧
      ∀ q, q ≠ r.protocol →
        lookupBin (s.push_result r).protocol_result_queues q =
          lookupBin s.protocol_result_queues q) := by
  refine ⟨(push_result_counters s r).1, ?_, ?_, ?_⟩
  · simp only [ScanSession.push_result]
    split_ifs <;> simp_all
  · intro ho ha
    simp only [ScanSession.push_result]
    split_ifs with h1 h2 <;> simp_all
  · intro hno
    constructor
    · simp only [ScanSession.push_result]
      split_ifs <;> simp_all [lookupBin_pushBin_self]
    · intro q hq
      simp only [ScanSession.push_result]
      split_ifs <;> simp_all [lookupBin_pushBin_other _ _ _ _ hq]

/-- Witness for C5 at a concrete session and result: an accessible SMTP
result with positive response time lands at the back of the SMTP bin and
bumps the completed counter. -/
theorem c5_push_result_spec_witness :
    (ScanSession.push_result
        { ip := "9.9.9.9", domain := "d.example", only_success := false,
          available_ports := [25], protocol_port_queues := [("SMTP", [])],
          protocol_result_queues := [("SMTP", [])], tasks_total := 1,
          tasks_completed := 0, inflight := 1, latency_updates := [] }
        ⟨"SMTP", true, 5⟩).tasks_completed = 1 ∧
    lookupBin (ScanSession.push_result
        { ip := "9.9.9.9", domain := "d.example", only_success := false,
          available_ports := [25], protocol_port_queues := [("SMTP", [])],
          protocol_result_queues := [("SMTP", [])], tasks_total := 1,
          tasks_completed := 0, inflight := 1, latency_updates := [] }
        ⟨"SMTP", true, 5⟩).protocol_result_queues "SMTP" =
      some [⟨"SMTP", true, 5⟩] := by
  have h := c5_push_result_spec
    { ip := "9.9.9.9", domain := "d.example", only_success := false,
      available_ports := [25], protocol_port_queues := [("SMTP", [])],
      protocol_result_queues := [("SMTP", [])], tasks_total := 1,
      tasks_completed := 0, inflight := 1, latency_updates := [] }
    ⟨"SMTP", true, 5⟩
  refine ⟨h.1, ?_⟩
  have h4 := (h.2.2.2 (by decide)).1
  rw [h4]
  decide

/-- Folding `acc + f x` over a list starting at `n` sums the images. -/
theorem foldl_add_init {α : Type} (f : α → Nat) (l : List α) (n : Nat) :
    l.foldl (fun acc x => acc + f x) n = n + (l.map f).sum := by
  induction l generalizing n with
  | nil => simp
  | cons x xs ih => simp [ih, Nat.add_assoc]

/-- Per protocol, the `should_probe` count of the constructor equals the
length of the port queue that `init_protocol_queues` builds for it. -/
theorem per_protocol_queue_length (available : List Nat) (mode : ProbeMode)
    (p : IProtocol) :
    (if available.isEmpty then ([] : List Nat)
     else match mode with
       | ProbeMode.ProtocolDefaults =>
           p.default_ports.filter (fun d => decide (d ∈ available))
       | ProbeMode.AllAvailable => available).length =
    (match mode with
      | ProbeMode.ProtocolDefaults =>
          (p.default_ports.filter (should_probe available mode p)).length
      | ProbeMode.AllAvailable =>
          (available.filter (should_probe available mode p)).length) := by
  by_cases hA : available.isEmpty
  · have hf : ∀ (l : List Nat), List.filter (should_probe available mode p) l = [] := by
      intro l
      have hc : List.filter (should_probe available mode p) l =
          List.filter (fun _ => false) l :=
        List.filter_congr (fun x _ => by simp [should_probe, hA])
      simp [hc]
    cases mode <;> simp [hA, hf]
  · cases mode with
    | AllAvailable =>
      have hf : List.filter (should_probe available ProbeMode.AllAvailable p) available =
          List.filter (fun _ => true) available :=
        List.filter_congr (fun x hx => by simp [should_probe, hA, hx])
      simp [hA, hf]
    | ProtocolDefaults =>
      have hf : List.filter (should_probe available ProbeMode.ProtocolDefaults p)
            p.default_ports =
          List.filter (fun d => decide (d ∈ available)) p.default_ports :=
        List.filter_congr (fun d hd => by
          by_cases hdav : d ∈ available <;> simp [should_probe, hA, hd, hdav])
      simp [hA, hf]

/-- The `total_tasks` estimate of the constructor equals the total number of
ports enqueued by `init_protocol_queues`. -/
theorem queued_eq_total (protocols : List IProtocol) (available : List Nat)
    (mode : ProbeMode) :
    queuedCount (init_protocol_queues protocols available mode) =
      count_total_tasks protocols available mode := by
  simp only [queuedCount, init_protocol_queues, count_total_tasks, List.map_map]
  rw [foldl_add_init, Nat.zero_add]
  congr 1
  apply List.map_congr_left
  intro p _
  exact per_protocol_queue_length available mode p

/-- Popping the first pending port decreases the queued total by one. -/
theorem pop_first_pending_queued (qs : List (String × List Nat)) :
    ∀ {n : String} {port : Nat} {qs' : List (String × List Nat)},
      pop_first_pending qs = some (n, port, qs') →
      queuedCount qs = queuedCount qs' + 1 := by
  induction qs with
  | nil => intro n port qs' h; simp [pop_first_pending] at h
  | cons kv rest ih =>
    intro n port qs' h
    obtain ⟨nm, ps⟩ := kv
    cases ps with
    | nil =>
      simp only [pop_first_pending] at h
      cases hrec : pop_first_pending rest with
      | none => rw [hrec] at h; simp at h
      | some x =>
        obtain ⟨m, pp, rest'⟩ := x
        rw [hrec] at h
        simp only [Option.map_some', Option.some.injEq, Prod.mk.injEq] at h
        obtain ⟨h1, h2, h3⟩ := h
        subst h3
        have hr := @ih m pp rest' hrec
        simp only [queuedCount, List.map_cons, List.sum_cons, List.length_nil] at hr ⊢
        omega
    | cons q0 qt =>
      simp only [pop_first_pending, Option.some.injEq, Prod.mk.injEq] at h
      obtain ⟨h1, h2, h3⟩ := h
      subst h3
      simp [queuedCount]
      omega

/-- A `start_one_probe` call preserves the session accounting bound
`completed + inflight + queued ≤ total`: the probe either moves one
queued pair to in-flight, is a no-op, or — when the protocol-instance
lookup fails after the pop — loses the pair, which only lowers the left
side. -/
theorem start_one_probe_bound (protocols : List IProtocol) (s : ScanSession)
    (h : s.tasks_completed + s.inflight + queuedCount s.protocol_port_queues ≤
      s.tasks_total) :
    ((s.start_one_probe protocols).2).tasks_completed +
      ((s.start_one_probe protocols).2).inflight +
      queuedCount ((s.start_one_probe protocols).2).protocol_port_queues ≤
      ((s.start_one_probe protocols).2).tasks_total := by
  simp only [ScanSession.start_one_probe]
  by_cases hip : s.ip.isEmpty
  · simp [hip]; exact h
  · simp only [hip, Bool.false_eq_true, if_false]
    cases hpop : pop_first_pending s.protocol_port_queues with
    | none => simp [hpop]; exact h
    | some x =>
      obtain ⟨n, port, qs'⟩ := x
      have hq := pop_first_pending_queued s.protocol_port_queues hpop
      cases hfind : protocols.find? (fun p => p.name == n) with
      | none => simp [hpop, hfind]; omega
      | some p => simp [hpop, hfind]; omega

/-- Every session step preserves the accounting bound
`completed + inflight + queued ≤ total`. -/
theorem session_step_bound (protocols : List IProtocol) {s s' : ScanSession}
    (hstep : SessionStep protocols s s')
    (h : s.tasks_completed + s.inflight + queuedCount s.protocol_port_queues ≤
      s.tasks_total) :
    s'.tasks_completed + s'.inflight + queuedCount s'.protocol_port_queues ≤
      s'.tasks_total := by
  cases hstep with
  | start => exact start_one_probe_bound protocols s h
  | complete r hpos =>
    obtain ⟨h1, h2, h3, _⟩ := push_result_counters s r
    show (s.push_result r).tasks_completed + (s.inflight - 1) +
        queuedCount (s.push_result r).protocol_port_queues ≤
        (s.push_result r).tasks_total
    rw [h1, h2, h3]
    omega

/-- The accounting bound holds in every state reachable from a state
satisfying it. -/
theorem session_reachable_bound (protocols : List IProtocol)
    {s0 s : ScanSession} (hr : SessionReachable protocols s0 s)
    (h0 : s0.tasks_completed + s0.inflight + queuedCount s0.protocol_port_queues ≤
      s0.tasks_total) :
    s.tasks_completed + s.inflight + queuedCount s.protocol_port_queues ≤
      s.tasks_total := by
  induction hr with
  | refl => exact h0
  | tail hr hstep ih => exact session_step_bound protocols hstep ih

/-- Claim C9.  In every state reachable — by `start_one_probe` calls and
single-shot probe completions — from a freshly constructed session,
`tasks_completed ≤ tasks_total`: construction sets the task total to the
number of enqueued (protocol, port) pairs, each `start_one_probe`
consumes one queued pair, and each completion runs `push_result`
(incrementing the completed counter) exactly once. -/
theorem c9_tasks_completed_le_total (target : ScanTarget) (resolved_ip : String)
    (mode : ProbeMode) (protocols : List IProtocol) (only_success : Bool)
    (s : ScanSession)
    (h : SessionReachable protocols
      (mkScanSession target resolved_ip mode protocols only_success) s) :
    s.tasks_completed ≤ s.tasks_total := by
  have h0 : (mkScanSession target resolved_ip mode protocols only_success).tasks_completed +
      (mkScanSession target resolved_ip mode protocols only_success).inflight +
      queuedCount (mkScanSession target resolved_ip mode protocols
        only_success).protocol_port_queues ≤
      (mkScanSession target resolved_ip mode protocols only_success).tasks_total := by
    simp [mkScanSession, queued_eq_total]
  have hb := session_reachable_bound protocols h h0
  omega

/-- Witness for C9: the freshly constructed one-protocol session is
reachable in zero steps and satisfies the claimed inequality; its task
total evaluates to 1. -/
theorem c9_tasks_completed_le_total_witness :
    (mkScanSession ⟨"h.example", "1.2.3.4", [], 0⟩ "1.2.3.4"
        ProbeMode.ProtocolDefaults [⟨"SMTP", [25]⟩] false).tasks_total = 1 ∧
    (mkScanSession ⟨"h.example", "1.2.3.4", [], 0⟩ "1.2.3.4"
        ProbeMode.ProtocolDefaults [⟨"SMTP", [25]⟩] false).tasks_completed ≤
      (mkScanSession ⟨"h.example", "1.2.3.4", [], 0⟩ "1.2.3.4"
        ProbeMode.ProtocolDefaults [⟨"SMTP", [25]⟩] false).tasks_total :=
  ⟨by decide,
   c9_tasks_completed_le_total ⟨"h.example", "1.2.3.4", [], 0⟩ "1.2.3.4"
     ProbeMode.ProtocolDefaults [⟨"SMTP", [25]⟩] false _ SessionReachable.refl⟩

/-- Claim C10.  When the target ip of the session is empty, `start_one_probe`
returns false at its first guard: no port is popped from any queue, no
task is submitted, and the session state is returned unchanged. -/
theorem c10_start_one_probe_empty_ip (protocols : List IProtocol)
    (s : ScanSession) (h : s.ip = "") :
    s.start_one_probe protocols = (false, s) := by
  have hip : s.ip.isEmpty = true := by rw [h]; decide
  simp [ScanSession.start_one_probe, hip]

/-- Witness for C10: a session with empty ip but a non-empty SMTP port
queue is left untouched and the call reports failure. -/
theorem c10_start_one_probe_empty_ip_witness :
    ScanSession.start_one_probe
      { ip := "", domain := "d.example", only_success := false,
        available_ports := [25], protocol_port_queues := [("SMTP", [25])],
        protocol_result_queues := [("SMTP", [])], tasks_total := 1,
        tasks_completed := 0, inflight := 0, latency_updates := [] }
      [⟨"SMTP", [25]⟩] =
      (false,
       { ip := "", domain := "d.example", only_success := false,
         available_ports := [25], protocol_port_queues := [("SMTP", [25])],
         protocol_result_queues := [("SMTP", [])], tasks_total := 1,
         tasks_completed := 0, inflight := 0, latency_updates := [] }) :=
  c10_start_one_probe_empty_ip [⟨"SMTP", [25]⟩] _ rfl
